import Mathlib

/-!
Shallow embedding of `tk_desktop2/websockets/requests/toolkit_actions/execute_action.py`
(class `ExecuteActionWebsocketsRequest`).

The embedding models:
* the constructor `__init__` (payload validation, entity-reference
  normalization, project-id lookup) as `mkRequest`;
* the resolver `execute_with_context` (lines 219-240) as `resolveLoop` /
  `execute_with_context`;
* the thread body `_execute` (lines 151-193) as `runExecute`.

External collaborators are passed in as functions: the entity store
(`connection.shotgun.find_one`) as `shotgun : String → Int → Int` returning
the owning project id, and the resolved command's execution as an oracle
`run : Invocation → Except String α` that either returns an output or fails
with an error description (`str(e)` in the source).
-/

namespace ExecuteAction

/-- An entity record `{id: ..., type: ...}` as sent in the `entity_ids`
payload field from "my tasks" style pages (see the source docstring). -/
structure Entity where
  id : Int
  type : String
deriving DecidableEq, Repr

/-- The polymorphic `entity_ids` payload value: either a list of bare
integer ids or a list of entity records (the two wire forms documented in
the source docstring, lines 29-52). -/
inductive EntityIdsVal where
  | ints (ids : List Int)
  | dicts (entities : List Entity)
deriving DecidableEq, Repr

/-- The inbound payload restricted to the six keys the constructor reads.
An outer `none` means the key is absent from the payload mapping.  For
`project_id` the inner `Option` distinguishes a null value (`none`) from an
integer value (`some v`), both with the key present. -/
structure Payload where
  name : Option String
  title : Option String
  pc : Option String
  entity_ids : Option EntityIdsVal
  entity_type : Option String
  project_id : Option (Option Int)
deriving DecidableEq, Repr

/-- Errors the constructor can raise: `missingParam k` is the
`ValueError("...: Missing parameter 'k' in payload.")` of line 82, and
`indexError` is the unguarded `parameters["entity_ids"][0]` of line 90
failing on an empty sequence. -/
inductive InitError where
  | missingParam (param : String)
  | indexError
deriving DecidableEq, Repr

/-- The validated request state set up by `__init__`
(`self._command_name`, `_command_title`, `_config_name`, `_entity_type`,
`_entity_id`, `_entity_ids`, `_project_id`). -/
structure Request where
  command_name : String
  command_title : String
  config_name : String
  entity_type : String
  entity_id : Int
  entity_ids : List Int
  project_id : Int
deriving DecidableEq, Repr

/-- Tail of the constructor (lines 109-121): decide whether the project id
must be resolved.  `pid = none` models `parameters.get("project_id") is
None`; in that case one `find_one` lookup keyed by the entity type and the
primary entity id happens and its project id is used; otherwise the supplied
value is used verbatim.  The second component of the result is the log of
lookup calls made. -/
def finishRequest (shotgun : String → Int → Int)
    (command_name command_title config_name entity_type : String)
    (entity_id : Int) (entity_ids : List Int) (pid : Option Int) :
    Except InitError Request × List (String × Int) :=
  match pid with
  | none =>
      (Except.ok
        { command_name := command_name, command_title := command_title,
          config_name := config_name, entity_type := entity_type,
          entity_id := entity_id, entity_ids := entity_ids,
          project_id := shotgun entity_type entity_id },
       [(entity_type, entity_id)])
  | some v =>
      (Except.ok
        { command_name := command_name, command_title := command_title,
          config_name := config_name, entity_type := entity_type,
          entity_id := entity_id, entity_ids := entity_ids,
          project_id := v },
       [])

/-- The constructor `__init__` (lines 60-121).  The required-parameter loop
of lines 72-82 is unrolled in its literal order
`name, title, pc, entity_ids, entity_type, project_id`; the first missing
key aborts construction.  Then the first element of `entity_ids` is read
(an empty sequence raises `indexError`), the entity references are
normalized (lines 90-107), and the project id is resolved
(`finishRequest`).  The second component is the log of entity-store lookup
calls; no call is made before validation completes. -/
def mkRequest (shotgun : String → Int → Int) (p : Payload) :
    Except InitError Request × List (String × Int) :=
  match p.name with
  | none => (Except.error (InitError.missingParam "name"), [])
  | some command_name =>
  match p.title with
  | none => (Except.error (InitError.missingParam "title"), [])
  | some command_title =>
  match p.pc with
  | none => (Except.error (InitError.missingParam "pc"), [])
  | some config_name =>
  match p.entity_ids with
  | none => (Except.error (InitError.missingParam "entity_ids"), [])
  | some eids =>
  match p.entity_type with
  | none => (Except.error (InitError.missingParam "entity_type"), [])
  | some entity_type =>
  match p.project_id with
  | none => (Except.error (InitError.missingParam "project_id"), [])
  | some pid =>
  match eids with
  | EntityIdsVal.ints [] => (Except.error InitError.indexError, [])
  | EntityIdsVal.dicts [] => (Except.error InitError.indexError, [])
  | EntityIdsVal.ints (first :: rest) =>
      finishRequest shotgun command_name command_title config_name
        entity_type first (first :: rest) pid
  | EntityIdsVal.dicts (first :: rest) =>
      finishRequest shotgun command_name command_title config_name
        entity_type first.id ((first :: rest).map Entity.id) pid

/-- Primary entity id of an `entity_ids` payload value: the first bare id,
or the first record's id (`parameters["entity_ids"][0]`, lines 90-103). -/
def EntityIdsVal.primary : EntityIdsVal → Option Int
  | EntityIdsVal.ints [] => none
  | EntityIdsVal.ints (x :: _) => some x
  | EntityIdsVal.dicts [] => none
  | EntityIdsVal.dicts (e :: _) => some e.id

/-- Normalized integer id sequence of an `entity_ids` payload value: the
bare list verbatim, or the projected ids of the records (lines 100, 107). -/
def EntityIdsVal.normalized : EntityIdsVal → List Int
  | EntityIdsVal.ints l => l
  | EntityIdsVal.dicts l => l.map Entity.id

/-- Whether a key is one of the six required payload keys and is absent
from the payload.  Used to state that a validation error names a key that
really is missing. -/
def payloadMissingKey (p : Payload) (k : String) : Bool :=
  (k == "name" && p.name.isNone) ||
  (k == "title" && p.title.isNone) ||
  (k == "pc" && p.pc.isNone) ||
  (k == "entity_ids" && p.entity_ids.isNone) ||
  (k == "entity_type" && p.entity_type.isNone) ||
  (k == "project_id" && p.project_id.isNone)

/-- An external command as the resolver and executor see it: its
`system_name` and its `support_shotgun_multiple_selection` capability flag
(its execution behavior is supplied separately as an oracle). -/
structure ExternalCommand where
  system_name : String
  support_shotgun_multiple_selection : Bool
deriving DecidableEq, Repr

/-- One entry of the `associated_commands` argument to
`execute_with_context`: a configuration (only its
`pipeline_configuration_name` matters here), its command list (possibly
`None`), and an error string (unused by this code path). -/
structure CatalogEntry where
  pipeline_configuration_name : String
  commands : Option (List ExternalCommand)
  error : Option String
deriving DecidableEq, Repr

/-- Effective scope name of a catalog entry (line 224):
`config["configuration"].pipeline_configuration_name or "Primary"` — an
empty (falsy) configuration name aliases to the literal `"Primary"`. -/
def effectiveConfigName (c : CatalogEntry) : String :=
  if c.pipeline_configuration_name = "" then "Primary"
  else c.pipeline_configuration_name

/-- Inner loop of the resolver (lines 227-230): scan a command list and
return the first command whose `system_name` matches, stopping there. -/
def findFirstCommand (commandName : String) :
    List ExternalCommand → Option ExternalCommand
  | [] => none
  | cmd :: rest =>
      if cmd.system_name = commandName then some cmd
      else findFirstCommand commandName rest

/-- Outer loop of the resolver (lines 220-230): walk every catalog entry in
supplied order — there is no break after a match — and when the effective
scope name matches the request's configuration name, overwrite
`self._resolved_command` with the first matching command of that entry (if
any; a scope-matching entry with no matching command leaves the previous
value in place, and `config["commands"] or []` treats a `None` command list
as empty). -/
def resolveLoop (configName commandName : String) :
    Option ExternalCommand → List CatalogEntry → Option ExternalCommand
  | resolved, [] => resolved
  | resolved, config :: rest =>
      let resolved' :=
        if effectiveConfigName config = configName then
          match findFirstCommand commandName (config.commands.getD []) with
          | some cmd => some cmd
          | none => resolved
        else resolved
      resolveLoop configName commandName resolved' rest

/-- What one full match step contributes for a single catalog entry: the
first command with the requested `system_name`, provided the entry's
effective scope name equals the requested configuration name (helper for
stating resolver properties; `resolveLoop` keeps the last non-`none`
contribution). -/
def catalogMatch (configName commandName : String) (c : CatalogEntry) :
    Option ExternalCommand :=
  if effectiveConfigName c = configName then
    findFirstCommand commandName (c.commands.getD [])
  else none

/-- Outcome of `execute_with_context` (lines 195-240): either the
`RuntimeError("...: Configuration mismatch!")` of line 233 propagates to the
caller — in which case no worker thread is started and no reply is ever
sent — or a command is bound as `self._resolved_command` and the detached
worker thread running `_execute` is started with it. -/
inductive ContextOutcome where
  | raised (message : String)
  | started (resolvedCommand : ExternalCommand)
deriving DecidableEq, Repr

/-- The resolver `execute_with_context` (lines 219-240): run the catalog
scan starting from `self._resolved_command = None` (set in `__init__`,
line 84); if nothing was bound, raise the configuration-mismatch error,
otherwise start execution with the bound command. -/
def execute_with_context (configName commandName : String)
    (associated_commands : List CatalogEntry) : ContextOutcome :=
  match resolveLoop configName commandName none associated_commands with
  | none => ContextOutcome.raised "Configuration mismatch!"
  | some cmd => ContextOutcome.started cmd

/-- Which call `_execute` makes on the resolved command (lines 156-162):
`execute_on_multiple_entities(pre_cache=True, entity_ids=...)` with the full
normalized id list, or the single-entity `execute(pre_cache=True)` which
runs the command against only the primary entity it was built for. -/
inductive Invocation where
  | onMultipleEntities (pre_cache : Bool) (entity_ids : List Int)
  | single (pre_cache : Bool)
deriving DecidableEq, Repr

/-- True when `needle` occurs as a contiguous run at the front of the
character list (Python substring search helper). -/
def charsAtFront : List Char → List Char → Bool
  | [], _ => true
  | _ :: _, [] => false
  | a :: as, b :: bs => a == b && charsAtFront as bs

/-- True when the needle occurs as a contiguous run anywhere in the
character list. -/
def charsOccur (needle : List Char) : List Char → Bool
  | [] => charsAtFront needle []
  | b :: bs => charsAtFront needle (b :: bs) || charsOccur needle bs

/-- Python `needle in haystack` substring containment on strings
(line 178). -/
def strContains (haystack needle : String) : Bool :=
  charsOccur needle.toList haystack.toList

/-- The legacy QT failure signature tested on line 178. -/
def qtErrorSignature : String :=
  "Looks like you are trying to run a Sgtk App that uses a QT based UI"

/-- The fixed replacement message of lines 182-185 (the three source string
literals concatenated). -/
def qtReplacementMessage : String :=
  "The version of the Toolkit Shotgun Engine (tk-shotgun) you " ++
  "are running does not support PySide2. Please upgrade your " ++
  "configuration to use version v0.8.0 or above of the engine."

/-- Modelled from the spec: the structured reply produced by
`WebsocketsRequest._reply_with_status` (that base class is outside the
supplied source).  Per the spec it is a status object
`\x7bstatus: 0|1, output?: any, error?: string\x7d` sent exactly once per
request; `_execute` passes `output` on success (default status 0) and
`status=1` with an `error` string on failure. -/
structure Reply (α : Type) where
  status : Nat
  output : Option α
  error : Option String
deriving DecidableEq, Repr

/-- The branch of lines 156-162: a command advertising
`support_shotgun_multiple_selection` is invoked on all entities with
pre-caching, any other command gets the single-entity call with
pre-caching. -/
def chooseInvocation (cmd : ExternalCommand) (entity_ids : List Int) :
    Invocation :=
  if cmd.support_shotgun_multiple_selection then
    Invocation.onMultipleEntities true entity_ids
  else
    Invocation.single true

/-- The thread body `_execute` (lines 151-193).  The command's behavior is
the oracle `run`: `Except.ok output` models a normal return,
`Except.error msg` models a raised exception with `str(e) = msg`.  Every
outcome is translated into exactly one reply: success replies with the
output (status 0); a failure whose description contains the QT signature
replies with the fixed replacement message (status 1); any other failure
replies with the original description verbatim (status 1).  The function is
total: no failure escapes the executor. -/
def runExecute {α : Type} (cmd : ExternalCommand) (entity_ids : List Int)
    (run : Invocation → Except String α) : Invocation × Reply α :=
  let inv := chooseInvocation cmd entity_ids
  match run inv with
  | Except.ok output =>
      (inv, { status := 0, output := some output, error := none })
  | Except.error msg =>
      if strContains msg qtErrorSignature then
        (inv, { status := 1, output := none,
                error := some qtReplacementMessage })
      else
        (inv, { status := 1, output := none, error := some msg })

/-- C1: at construction, the project lookup happens exactly when the
payload's `project_id` value is null: in that case exactly one entity-store
lookup keyed by the entity type and the primary entity id occurs and the
request's `project_id` is the returned project id; if `project_id` is
present with any non-null value (including 0), no lookup occurs and
`project_id` equals the supplied value verbatim. -/
theorem project_lookup_exactly_when_null (shotgun : String → Int → Int)
    (nm ti cfg et : String) (eids : EntityIdsVal) (pid : Option Int)
    (eid0 : Int) (h : eids.primary = some eid0) :
    (∀ v, pid = some v →
      mkRequest shotgun
        { name := some nm, title := some ti, pc := some cfg,
          entity_ids := some eids, entity_type := some et,
          project_id := some pid } =
      (Except.ok
        { command_name := nm, command_title := ti, config_name := cfg,
          entity_type := et, entity_id := eid0,
          entity_ids := eids.normalized, project_id := v }, [])) ∧
    (pid = none →
      mkRequest shotgun
        { name := some nm, title := some ti, pc := some cfg,
          entity_ids := some eids, entity_type := some et,
          project_id := some pid } =
      (Except.ok
        { command_name := nm, command_title := ti, config_name := cfg,
          entity_type := et, entity_id := eid0,
          entity_ids := eids.normalized, project_id := shotgun et eid0 },
       [(et, eid0)])) := by
  constructor
  · intro v hv
    subst hv
    cases eids with
    | ints l =>
        cases l with
        | nil => simp [EntityIdsVal.primary] at h
        | cons x xs =>
            simp [EntityIdsVal.primary] at h
            subst h
            simp [mkRequest, finishRequest, EntityIdsVal.normalized]
    | dicts l =>
        cases l with
        | nil => simp [EntityIdsVal.primary] at h
        | cons e es =>
            simp [EntityIdsVal.primary] at h
            subst h
            simp [mkRequest, finishRequest, EntityIdsVal.normalized]
  · intro hv
    subst hv
    cases eids with
    | ints l =>
        cases l with
        | nil => simp [EntityIdsVal.primary] at h
        | cons x xs =>
            simp [EntityIdsVal.primary] at h
            subst h
            simp [mkRequest, finishRequest, EntityIdsVal.normalized]
    | dicts l =>
        cases l with
        | nil => simp [EntityIdsVal.primary] at h
        | cons e es =>
            simp [EntityIdsVal.primary] at h
            subst h
            simp [mkRequest, finishRequest, EntityIdsVal.normalized]

theorem project_lookup_exactly_when_null_witness :
    (EntityIdsVal.ints [5757]).primary = some 5757 ∧
    mkRequest (fun _ _ => 87)
      { name := some "nuke", title := some "Nuke", pc := some "Primary",
        entity_ids := some (EntityIdsVal.ints [5757]),
        entity_type := some "Task", project_id := some none } =
      (Except.ok
        { command_name := "nuke", command_title := "Nuke",
          config_name := "Primary", entity_type := "Task",
          entity_id := 5757, entity_ids := [5757], project_id := 87 },
       [("Task", 5757)]) ∧
    mkRequest (fun _ _ => 87)
      { name := some "nuke", title := some "Nuke", pc := some "Primary",
        entity_ids := some (EntityIdsVal.ints [5757]),
        entity_type := some "Task", project_id := some (some 0) } =
      (Except.ok
        { command_name := "nuke", command_title := "Nuke",
          config_name := "Primary", entity_type := "Task",
          entity_id := 5757, entity_ids := [5757], project_id := 0 },
       []) :=
  ⟨rfl,
   (project_lookup_exactly_when_null (fun _ _ => 87) "nuke" "Nuke"
      "Primary" "Task" (EntityIdsVal.ints [5757]) none 5757 rfl).2 rfl,
   (project_lookup_exactly_when_null (fun _ _ => 87) "nuke" "Nuke"
      "Primary" "Task" (EntityIdsVal.ints [5757]) (some 0) 5757 rfl).1 0 rfl⟩

/-- C5: entity-reference normalization.  For a bare-integer `entity_ids`
sequence the request's primary entity id is the first element and its id
list is the sequence verbatim; for a record sequence the primary entity id
is the first record's id and the id list is the projected ids in order. -/
theorem entity_reference_normalization (shotgun : String → Int → Int)
    (nm ti cfg et : String) (pid : Option Int) (x : Int) (xs : List Int)
    (e : Entity) (es : List Entity) :
    ((mkRequest shotgun
        { name := some nm, title := some ti, pc := some cfg,
          entity_ids := some (EntityIdsVal.ints (x :: xs)),
          entity_type := some et, project_id := some pid }).1.toOption.map
      (fun r => (r.entity_id, r.entity_ids)) = some (x, x :: xs)) ∧
    ((mkRequest shotgun
        { name := some nm, title := some ti, pc := some cfg,
          entity_ids := some (EntityIdsVal.dicts (e :: es)),
          entity_type := some et, project_id := some pid }).1.toOption.map
      (fun r => (r.entity_id, r.entity_ids)) =
      some (e.id, (e :: es).map Entity.id)) := by
  cases pid <;>
    simp [mkRequest, finishRequest, Except.toOption]

/-- C10: a payload holding all six required keys but an empty `entity_ids`
sequence makes construction fail with the unguarded indexing error of
`parameters["entity_ids"][0]`, not with a validation error naming a key;
no lookup call occurs. -/
theorem empty_entity_ids_index_error (shotgun : String → Int → Int)
    (nm ti cfg et : String) (pid : Option Int) (eids : EntityIdsVal)
    (h : eids = EntityIdsVal.ints [] ∨ eids = EntityIdsVal.dicts []) :
    mkRequest shotgun
      { name := some nm, title := some ti, pc := some cfg,
        entity_ids := some eids, entity_type := some et,
        project_id := some pid } =
      (Except.error InitError.indexError, []) ∧
    (∀ k, InitError.indexError ≠ InitError.missingParam k) := by
  refine ⟨?_, fun k hk => by cases hk⟩
  rcases h with h | h <;> subst h <;> simp [mkRequest]

theorem empty_entity_ids_index_error_witness :
    mkRequest (fun _ _ => 0)
      { name := some "nuke", title := some "Nuke", pc := some "Primary",
        entity_ids := some (EntityIdsVal.ints []),
        entity_type := some "Task", project_id := some (some 1) } =
      (Except.error InitError.indexError, []) ∧
    (∀ k, InitError.indexError ≠ InitError.missingParam k) :=
  empty_entity_ids_index_error (fun _ _ => 0) "nuke" "Nuke" "Primary"
    "Task" (some 1) (EntityIdsVal.ints []) (Or.inl rfl)

/-- One step of the resolver loop, phrased through `catalogMatch`: the
accumulator is overwritten exactly when the entry contributes a match. -/
theorem resolveLoop_cons (configName commandName : String)
    (acc : Option ExternalCommand) (c : CatalogEntry)
    (rest : List CatalogEntry) :
    resolveLoop configName commandName acc (c :: rest) =
      resolveLoop configName commandName
        (match catalogMatch configName commandName c with
         | some cmd => some cmd
         | none => acc) rest := by
  by_cases hc : effectiveConfigName c = configName
  · simp only [resolveLoop, catalogMatch, hc, if_pos]
  · simp only [resolveLoop, catalogMatch, hc, if_neg, not_false_iff]

/-- The resolver loop over a concatenation first processes the left part,
then the right part starting from the left part's result. -/
theorem resolveLoop_append (configName commandName : String)
    (acc : Option ExternalCommand) (l₁ l₂ : List CatalogEntry) :
    resolveLoop configName commandName acc (l₁ ++ l₂) =
      resolveLoop configName commandName
        (resolveLoop configName commandName acc l₁) l₂ := by
  induction l₁ generalizing acc with
  | nil => simp [resolveLoop]
  | cons c rest ih =>
      rw [List.cons_append, resolveLoop_cons, resolveLoop_cons]
      exact ih _

/-- Catalog entries that contribute no match leave the accumulator
untouched. -/
theorem resolveLoop_no_match (configName commandName : String)
    (acc : Option ExternalCommand) (l : List CatalogEntry)
    (h : ∀ c ∈ l, catalogMatch configName commandName c = none) :
    resolveLoop configName commandName acc l = acc := by
  induction l with
  | nil => rfl
  | cons c rest ih =>
      rw [resolveLoop_cons, h c (List.mem_cons_self c rest)]
      exact ih fun c' hc' => h c' (List.mem_cons_of_mem c hc')

/-- C2: when several catalog entries match the request (same effective
scope name, a command with the requested system name), the resolver binds
the first matching command of the last such entry in supplied order: the
scan does not stop after a match, so a later matching catalog overwrites an
earlier match. -/
theorem resolver_last_catalog_wins (configName commandName : String)
    (pre post : List CatalogEntry) (c : CatalogEntry)
    (x : ExternalCommand)
    (_hdup : ∃ c0 ∈ pre, catalogMatch configName commandName c0 ≠ none)
    (hc : catalogMatch configName commandName c = some x)
    (hpost : ∀ c1 ∈ post, catalogMatch configName commandName c1 = none) :
    execute_with_context configName commandName (pre ++ c :: post) =
      ContextOutcome.started x := by
  unfold execute_with_context
  rw [resolveLoop_append, resolveLoop_cons, hc,
    resolveLoop_no_match configName commandName _ post hpost]

theorem resolver_last_catalog_wins_witness :
    (∃ c0 ∈ [({ pipeline_configuration_name := "Primary",
                commands := some [{ system_name := "launch",
                                    support_shotgun_multiple_selection := false }],
                error := none } : CatalogEntry)],
      catalogMatch "Primary" "launch" c0 ≠ none) ∧
    catalogMatch "Primary" "launch"
      { pipeline_configuration_name := "Primary",
        commands := some [{ system_name := "launch",
                            support_shotgun_multiple_selection := true }],
        error := none } =
      some { system_name := "launch",
             support_shotgun_multiple_selection := true } ∧
    (∀ c1 ∈ ([] : List CatalogEntry),
      catalogMatch "Primary" "launch" c1 = none) ∧
    execute_with_context "Primary" "launch"
      ([{ pipeline_configuration_name := "Primary",
          commands := some [{ system_name := "launch",
                              support_shotgun_multiple_selection := false }],
          error := none }] ++
        [({ pipeline_configuration_name := "Primary",
            commands := some [{ system_name := "launch",
                                support_shotgun_multiple_selection := true }],
            error := none } : CatalogEntry)]) =
      ContextOutcome.started
        { system_name := "launch",
          support_shotgun_multiple_selection := true } :=
  ⟨⟨_, List.mem_singleton.mpr rfl, by decide⟩, by decide, by decide,
   resolver_last_catalog_wins "Primary" "launch" _ [] _ _
     ⟨_, List.mem_singleton.mpr rfl, by decide⟩ (by decide)
     (fun c1 hc1 => absurd hc1 (List.not_mem_nil c1))⟩

/-- C3: a catalog entry whose stated configuration name is empty gets the
effective scope name "Primary": a request for configuration "Primary" and
the command's own system name resolves to that command. -/
theorem empty_config_name_aliases_primary (cmdA : ExternalCommand) :
    execute_with_context "Primary" cmdA.system_name
      [{ pipeline_configuration_name := "", commands := some [cmdA],
         error := none }] =
      ContextOutcome.started cmdA := by
  simp [execute_with_context, resolveLoop, effectiveConfigName,
    findFirstCommand]

/-- C4: when no catalog entry matches the request's configuration name and
command name (a null command list counting as empty), resolution raises the
configuration-mismatch error to the caller; in that outcome no worker
thread is started and no reply is sent. -/
theorem resolution_failure_raises (configName commandName : String)
    (catalogs : List CatalogEntry)
    (h : ∀ c ∈ catalogs, catalogMatch configName commandName c = none) :
    execute_with_context configName commandName catalogs =
      ContextOutcome.raised "Configuration mismatch!" := by
  unfold execute_with_context
  rw [resolveLoop_no_match configName commandName none catalogs h]

theorem resolution_failure_raises_witness :
    (∀ c ∈ [({ pipeline_configuration_name := "Other",
               commands := some [{ system_name := "launch",
                                   support_shotgun_multiple_selection := false }],
               error := none } : CatalogEntry),
            { pipeline_configuration_name := "Primary",
              commands := none, error := some "broken" }],
      catalogMatch "Primary" "launch" c = none) ∧
    execute_with_context "Primary" "launch"
      [{ pipeline_configuration_name := "Other",
         commands := some [{ system_name := "launch",
                             support_shotgun_multiple_selection := false }],
         error := none },
       { pipeline_configuration_name := "Primary",
         commands := none, error := some "broken" }] =
      ContextOutcome.raised "Configuration mismatch!" :=
  ⟨by decide, resolution_failure_raises "Primary" "launch" _ (by decide)⟩

/-- C6: a raw payload missing at least one of the six required keys makes
construction fail with a validation error naming a key that really is
missing, and no lookup call occurs (the lookup log is empty; no reply is
ever produced at construction). -/
theorem missing_key_validation (shotgun : String → Int → Int) (p : Payload)
    (h : p.name = none ∨ p.title = none ∨ p.pc = none ∨
         p.entity_ids = none ∨ p.entity_type = none ∨
         p.project_id = none) :
    ∃ k, payloadMissingKey p k = true ∧
      mkRequest shotgun p = (Except.error (InitError.missingParam k), []) := by
  obtain ⟨n, t, c, ei, et, pj⟩ := p
  cases n with
  | none =>
      exact ⟨"name", by simp [payloadMissingKey], by simp [mkRequest]⟩
  | some nv =>
  cases t with
  | none =>
      exact ⟨"title", by simp [payloadMissingKey], by simp [mkRequest]⟩
  | some tv =>
  cases c with
  | none =>
      exact ⟨"pc", by simp [payloadMissingKey], by simp [mkRequest]⟩
  | some cv =>
  cases ei with
  | none =>
      exact ⟨"entity_ids", by simp [payloadMissingKey], by simp [mkRequest]⟩
  | some eiv =>
  cases et with
  | none =>
      exact ⟨"entity_type", by simp [payloadMissingKey], by simp [mkRequest]⟩
  | some etv =>
  cases pj with
  | none =>
      exact ⟨"project_id", by simp [payloadMissingKey], by simp [mkRequest]⟩
  | some pjv =>
      simp at h

theorem missing_key_validation_witness :
    ((some "Primary" : Option String) = none ∨
     (none : Option String) = none ∨
     (some "Primary" : Option String) = none ∨
     (some (EntityIdsVal.ints [1]) : Option EntityIdsVal) = none ∨
     (some "Task" : Option String) = none ∨
     (some (some 1) : Option (Option Int)) = none) ∧
    ∃ k, payloadMissingKey
        { name := some "Primary", title := none, pc := some "Primary",
          entity_ids := some (EntityIdsVal.ints [1]),
          entity_type := some "Task", project_id := some (some 1) } k =
        true ∧
      mkRequest (fun _ _ => 0)
        { name := some "Primary", title := none, pc := some "Primary",
          entity_ids := some (EntityIdsVal.ints [1]),
          entity_type := some "Task", project_id := some (some 1) } =
        (Except.error (InitError.missingParam k), []) :=
  ⟨Or.inr (Or.inl rfl),
   missing_key_validation (fun _ _ => 0)
     { name := some "Primary", title := none, pc := some "Primary",
       entity_ids := some (EntityIdsVal.ints [1]),
       entity_type := some "Task", project_id := some (some 1) }
     (Or.inr (Or.inl rfl))⟩

/-- C7: the executor invokes a command that advertises multi-entity support
with the full normalized entity id list and pre-caching enabled; any other
command gets the single-entity call (against only the primary entity the
command is bound to) with pre-caching enabled — the extra selected entities
are silently dropped and, the function being total, no error is raised for
them. -/
theorem multi_entity_invocation_shape {α : Type} (cmd : ExternalCommand)
    (entity_ids : List Int) (run : Invocation → Except String α) :
    (runExecute cmd entity_ids run).1 =
      if cmd.support_shotgun_multiple_selection then
        Invocation.onMultipleEntities true entity_ids
      else
        Invocation.single true := by
  simp only [runExecute]
  cases h : run (chooseInvocation cmd entity_ids) with
  | ok output => simp [h, chooseInvocation]
  | error msg =>
      by_cases hs : strContains msg qtErrorSignature <;>
        simp [h, hs, chooseInvocation]

/-- C8: an execution failure whose description contains the legacy QT
signature is replied to with status 1 and the fixed replacement message
asking for an engine upgrade to v0.8.0 or above, not with the original
description. -/
theorem qt_signature_replacement {α : Type} (cmd : ExternalCommand)
    (entity_ids : List Int) (run : Invocation → Except String α)
    (msg : String)
    (hrun : run (chooseInvocation cmd entity_ids) = Except.error msg)
    (hsig : strContains msg qtErrorSignature = true) :
    (runExecute cmd entity_ids run).2 =
      { status := 1, output := none, error := some qtReplacementMessage } := by
  simp only [runExecute]
  rw [hrun]
  simp [hsig]

theorem qt_signature_replacement_witness :
    (fun _ => (Except.error qtErrorSignature : Except String Nat))
      (chooseInvocation
        { system_name := "launch",
          support_shotgun_multiple_selection := false } [1]) =
      Except.error qtErrorSignature ∧
    strContains qtErrorSignature qtErrorSignature = true ∧
    (runExecute
        { system_name := "launch",
          support_shotgun_multiple_selection := false } [1]
        (fun _ => (Except.error qtErrorSignature : Except String Nat))).2 =
      { status := 1, output := none,
        error := some qtReplacementMessage } :=
  ⟨rfl, by decide,
   qt_signature_replacement
     { system_name := "launch", support_shotgun_multiple_selection := false }
     [1] (fun _ => (Except.error qtErrorSignature : Except String Nat))
     qtErrorSignature rfl (by decide)⟩

/-- C9: any execution failure whose description does not contain the QT
signature is recovered locally — the executor is a total function, so no
failure propagates — and replied to with status 1 and the original failure
description verbatim. -/
theorem execution_error_passthrough {α : Type} (cmd : ExternalCommand)
    (entity_ids : List Int) (run : Invocation → Except String α)
    (msg : String)
    (hrun : run (chooseInvocation cmd entity_ids) = Except.error msg)
    (hsig : strContains msg qtErrorSignature = false) :
    (runExecute cmd entity_ids run).2 =
      { status := 1, output := none, error := some msg } := by
  simp only [runExecute]
  rw [hrun]
  simp [hsig]

theorem execution_error_passthrough_witness :
    (fun _ => (Except.error "boom" : Except String Nat))
      (chooseInvocation
        { system_name := "launch",
          support_shotgun_multiple_selection := true } [1, 2]) =
      Except.error "boom" ∧
    strContains "boom" qtErrorSignature = false ∧
    (runExecute
        { system_name := "launch",
          support_shotgun_multiple_selection := true } [1, 2]
        (fun _ => (Except.error "boom" : Except String Nat))).2 =
      { status := 1, output := none, error := some "boom" } :=
  ⟨rfl, by decide,
   execution_error_passthrough
     { system_name := "launch", support_shotgun_multiple_selection := true }
     [1, 2] (fun _ => (Except.error "boom" : Except String Nat))
     "boom" rfl (by decide)⟩

end ExecuteAction
